import Mathlib

/-!
Verification of the calendar task-display and urgency-classification logic of a
browser-based todo-list application.

The embedded code lives in `src/utils/taskDisplayLogic.ts`
(`getTaskDisplayInfo`, `getTasksForDate`, `getTaskDisplayPriority`), in the
day-detail modal `src/components/calendar/DayTasksModal.tsx` (`sortedTasks`),
and in the shared type declarations (`Priority`, `Task`).

Modelling conventions:
* Dates are compared at day granularity (the code zeroes all time-of-day
  components with `setHours(0,0,0,0)` before any comparison), so a date is
  embedded as an integer day index (`Int`).  Days are uniform, so
  `ceil((b − a) / 1 day)` on two midnight dates is exactly `b − a`.
* The wall clock `new Date()` read at the top of `getTaskDisplayInfo` is made
  an explicit parameter `today`.
* The ratio `progressRatio` is computed in `ℚ`; the literals `0.8` and `0.6`
  become `8/10` and `6/10`.
* `Task` keeps exactly the fields the display logic reads (`startDate`,
  `dueDate`, `priority`, `isCompleted`) plus the identifying fields `id` and
  `title`; the remaining entity fields (description, status, group, audit
  timestamps, user id) are never read by this logic and are omitted.
-/

namespace TodoApp

/-- The `Priority` enum of the task entity (`LOW`, `MEDIUM`, `HIGH`, `URGENT`). -/
inductive Priority where
  | low
  | medium
  | high
  | urgent
deriving DecidableEq

/-- The urgency tier union type `'normal' | 'urgent' | 'critical'`. -/
inductive UrgencyLevel where
  | normal
  | urgent
  | critical
deriving DecidableEq

/-- The task entity, restricted to the fields read by the display logic. -/
structure Task where
  id : String
  title : String
  startDate : Option Int
  dueDate : Option Int
  priority : Priority
  isCompleted : Bool
deriving DecidableEq

/-- The `TaskDisplayInfo` interface returned by `getTaskDisplayInfo`. -/
structure TaskDisplayInfo where
  task : Task
  displayDate : Int
  isOverdue : Bool
  isUrgent : Bool
  urgencyLevel : UrgencyLevel
  shouldDisplay : Bool
deriving DecidableEq

/-- Embedding of `getTaskDisplayInfo` (src/utils/taskDisplayLogic.ts, lines
19-146).  `currentDate` is the candidate calendar cell, `today` the wall-clock
day; both are already midnight-normalized day indices. -/
def getTaskDisplayInfo (task : Task) (currentDate : Int) (today : Int) :
    TaskDisplayInfo :=
  let current := currentDate
  if task.isCompleted then
    -- Don't display completed tasks on calendar
    { task := task, displayDate := current, isOverdue := false,
      isUrgent := false, urgencyLevel := .normal, shouldDisplay := false }
  else
    match task.startDate with
    | none =>
      -- If no startDate, use the old logic (show on dueDate)
      match task.dueDate with
      | none =>
        { task := task, displayDate := current, isOverdue := false,
          isUrgent := false, urgencyLevel := .normal, shouldDisplay := false }
      | some dueDate =>
        let isOverdue := decide (dueDate < today)
        let shouldDisplay := decide (dueDate = current)
        { task := task, displayDate := current, isOverdue := isOverdue,
          isUrgent := isOverdue,
          urgencyLevel := if dueDate < today then .critical else .normal,
          shouldDisplay := shouldDisplay }
    | some startDate =>
      -- Case 1: Current date is before startDate: only show on startDate
      if today < startDate then
        { task := task, displayDate := startDate, isOverdue := false,
          isUrgent := false, urgencyLevel := .normal,
          shouldDisplay := decide (current = startDate) }
      else
        match task.dueDate with
        | some dueDate =>
          -- Case 2: Current date is after dueDate: only show on dueDate,
          -- with overdue indicator
          if today > dueDate then
            { task := task, displayDate := dueDate, isOverdue := true,
              isUrgent := true, urgencyLevel := .critical,
              shouldDisplay := decide (current = dueDate) }
          else
            -- Case 3: between startDate and dueDate: show on current date
            -- with urgency based on proximity to due date
            let totalDays : Int := max 1 (dueDate - startDate)
            let remainingDays : Int := dueDate - today
            let progress : ℚ :=
              ((totalDays : ℚ) - (remainingDays : ℚ)) / (totalDays : ℚ)
            let levelFlag : UrgencyLevel × Bool :=
              if remainingDays ≤ 1 then (.critical, true)
              else if remainingDays ≤ 3 ∨ progress ≥ 8/10 then (.urgent, true)
              else if progress ≥ 6/10 then (.urgent, false)
              else (.normal, false)
            { task := task, displayDate := today, isOverdue := false,
              isUrgent := levelFlag.2, urgencyLevel := levelFlag.1,
              shouldDisplay := decide (current = today) }
        | none =>
          -- Case 3 with no due date: just show normally on the current day
          { task := task, displayDate := today, isOverdue := false,
            isUrgent := false, urgencyLevel := .normal,
            shouldDisplay := decide (current = today) }

/-- Embedding of `getTasksForDate` (src/utils/taskDisplayLogic.ts, lines
151-155). -/
def getTasksForDate (tasks : List Task) (date : Int) (today : Int) :
    List TaskDisplayInfo :=
  (tasks.map (fun task => getTaskDisplayInfo task date today)).filter
    (fun info => info.shouldDisplay)

/-- Embedding of `getTaskDisplayPriority` (src/utils/taskDisplayLogic.ts,
lines 160-168). -/
def getTaskDisplayPriority (task : Task) (urgencyLevel : UrgencyLevel) :
    Priority :=
  if urgencyLevel = .critical then
    Priority.urgent
  else if urgencyLevel = .urgent ∧ task.priority ≠ Priority.urgent then
    Priority.high
  else
    task.priority

/-- The `urgencyOrder` table of the comparator in DayTasksModal.tsx. -/
def urgencyOrder : UrgencyLevel → Int
  | .critical => 3
  | .urgent => 2
  | .normal => 1

/-- The `priorityOrder` table of the comparator in DayTasksModal.tsx. -/
def priorityOrder : Priority → Int
  | .urgent => 4
  | .high => 3
  | .medium => 2
  | .low => 1

/-- The comparator passed to `.sort` in DayTasksModal.tsx (lines 28-43):
urgency tier first, stored priority as tiebreak, both descending. -/
def dayTasksCompare (a b : TaskDisplayInfo) : Int :=
  if a.urgencyLevel ≠ b.urgencyLevel then
    urgencyOrder b.urgencyLevel - urgencyOrder a.urgencyLevel
  else
    priorityOrder b.task.priority - priorityOrder a.task.priority

/-- The `sortedTasks` value of DayTasksModal.tsx: the day's tasks sorted with
`dayTasksCompare` (a comparison sort; `a` precedes `b` when the comparator is
nonpositive). -/
def sortedTasks (tasks : List Task) (date : Int) (today : Int) :
    List TaskDisplayInfo :=
  (getTasksForDate tasks date today).mergeSort
    (fun a b => decide (dayTasksCompare a b ≤ 0))

/-- The spec's Case C urgency formula, stated from the spec's words:
`totalDays = max(1, ceil((due − start) / 1 day))`,
`remainingDays = ceil((due − today) / 1 day)`,
`progress = (totalDays − remainingDays) / totalDays`, then
critical (urgent flag) when `remainingDays ≤ 1`, urgent (urgent flag) when
`remainingDays ≤ 3` or `progress ≥ 0.8`, urgent (no flag) when
`progress ≥ 0.6`, else normal. -/
def specCaseCUrgency (s d today : Int) : UrgencyLevel × Bool :=
  let totalDays : Int := max 1 (d - s)
  let remainingDays : Int := d - today
  let progress : ℚ :=
    ((totalDays : ℚ) - (remainingDays : ℚ)) / (totalDays : ℚ)
  if remainingDays ≤ 1 then (.critical, true)
  else if remainingDays ≤ 3 ∨ progress ≥ 8/10 then (.urgent, true)
  else if progress ≥ 6/10 then (.urgent, false)
  else (.normal, false)

/-- Numeric rank of an urgency tier in the order normal < urgent < critical. -/
def urgencyRank : UrgencyLevel → Nat
  | .normal => 0
  | .urgent => 1
  | .critical => 2

theorem getTaskDisplayInfo_completed (task : Task) (c today : Int)
    (hC : task.isCompleted = true) :
    getTaskDisplayInfo task c today =
      { task := task, displayDate := c, isOverdue := false, isUrgent := false,
        urgencyLevel := .normal, shouldDisplay := false } := by
  unfold getTaskDisplayInfo
  rw [hC]
  rfl

theorem getTaskDisplayInfo_noStart_noDue (task : Task) (c today : Int)
    (hC : task.isCompleted = false) (hS : task.startDate = none)
    (hD : task.dueDate = none) :
    getTaskDisplayInfo task c today =
      { task := task, displayDate := c, isOverdue := false, isUrgent := false,
        urgencyLevel := .normal, shouldDisplay := false } := by
  unfold getTaskDisplayInfo
  rw [hC, hS, hD]
  rfl

theorem getTaskDisplayInfo_noStart_due (task : Task) (c today d : Int)
    (hC : task.isCompleted = false) (hS : task.startDate = none)
    (hD : task.dueDate = some d) :
    getTaskDisplayInfo task c today =
      { task := task, displayDate := c, isOverdue := decide (d < today),
        isUrgent := decide (d < today),
        urgencyLevel := if d < today then .critical else .normal,
        shouldDisplay := decide (d = c) } := by
  unfold getTaskDisplayInfo
  rw [hC, hS, hD]
  rfl

theorem getTaskDisplayInfo_caseA (task : Task) (s c today : Int)
    (hC : task.isCompleted = false) (hS : task.startDate = some s)
    (hA : today < s) :
    getTaskDisplayInfo task c today =
      { task := task, displayDate := s, isOverdue := false, isUrgent := false,
        urgencyLevel := .normal, shouldDisplay := decide (c = s) } := by
  unfold getTaskDisplayInfo
  rw [hC, hS]
  simp only [Bool.false_eq_true, if_false]
  rw [if_pos hA]

theorem getTaskDisplayInfo_caseB (task : Task) (s d c today : Int)
    (hC : task.isCompleted = false) (hS : task.startDate = some s)
    (hD : task.dueDate = some d) (hA : ¬ today < s) (hB : d < today) :
    getTaskDisplayInfo task c today =
      { task := task, displayDate := d, isOverdue := true, isUrgent := true,
        urgencyLevel := .critical, shouldDisplay := decide (c = d) } := by
  unfold getTaskDisplayInfo
  rw [hC, hS, hD]
  simp only [Bool.false_eq_true, if_false]
  rw [if_neg hA, if_pos hB]

theorem getTaskDisplayInfo_caseC_noDue (task : Task) (s c today : Int)
    (hC : task.isCompleted = false) (hS : task.startDate = some s)
    (hD : task.dueDate = none) (hA : ¬ today < s) :
    getTaskDisplayInfo task c today =
      { task := task, displayDate := today, isOverdue := false,
        isUrgent := false, urgencyLevel := .normal,
        shouldDisplay := decide (c = today) } := by
  unfold getTaskDisplayInfo
  rw [hC, hS, hD]
  simp only [Bool.false_eq_true, if_false]
  rw [if_neg hA]

theorem getTaskDisplayInfo_caseC (task : Task) (s d c today : Int)
    (hC : task.isCompleted = false) (hS : task.startDate = some s)
    (hD : task.dueDate = some d) (hA : ¬ today < s) (hB : ¬ d < today) :
    getTaskDisplayInfo task c today =
      { task := task, displayDate := today, isOverdue := false,
        isUrgent := (specCaseCUrgency s d today).2,
        urgencyLevel := (specCaseCUrgency s d today).1,
        shouldDisplay := decide (c = today) } := by
  unfold getTaskDisplayInfo specCaseCUrgency
  rw [hC, hS, hD]
  simp only [Bool.false_eq_true, if_false]
  rw [if_neg hA, if_neg hB]

/-- Every branch of `getTaskDisplayInfo` returns the input task unchanged in
the `task` field. -/
theorem task_of_getTaskDisplayInfo (task : Task) (c today : Int) :
    (getTaskDisplayInfo task c today).task = task := by
  cases hC : task.isCompleted with
  | true => rw [getTaskDisplayInfo_completed task c today hC]
  | false =>
    cases hS : task.startDate with
    | none =>
      cases hD : task.dueDate with
      | none => rw [getTaskDisplayInfo_noStart_noDue task c today hC hS hD]
      | some d => rw [getTaskDisplayInfo_noStart_due task c today d hC hS hD]
    | some s =>
      by_cases hA : today < s
      · rw [getTaskDisplayInfo_caseA task s c today hC hS hA]
      · cases hD : task.dueDate with
        | none => rw [getTaskDisplayInfo_caseC_noDue task s c today hC hS hD hA]
        | some d =>
          by_cases hB : d < today
          · rw [getTaskDisplayInfo_caseB task s d c today hC hS hD hA hB]
          · rw [getTaskDisplayInfo_caseC task s d c today hC hS hD hA hB]

/-- In the spec's Case C formula, a critical tier always carries the urgent
flag. -/
theorem specCaseCUrgency_critical_flag (s d t : Int)
    (h : (specCaseCUrgency s d t).1 = .critical) :
    (specCaseCUrgency s d t).2 = true := by
  simp only [specCaseCUrgency] at h ⊢
  split_ifs at h ⊢
  all_goals simp_all

/-- A completed task used in witnesses. -/
def sampleCompleted : Task :=
  { id := "t1", title := "done", startDate := some 0, dueDate := some 5,
    priority := .high, isCompleted := true }

/-- A pending task with only a due date, used in witnesses. -/
def sampleDueOnly : Task :=
  { id := "t2", title := "due-only", startDate := none, dueDate := some 5,
    priority := .low, isCompleted := false }

/-- C8: a task with `isCompleted = true` is never displayed: its
`shouldDisplay` is false for every candidate date and wall clock, and no
element of any `getTasksForDate` output carries it. -/
theorem completed_never_displayed (task : Task) (c today : Int)
    (h : task.isCompleted = true) :
    (getTaskDisplayInfo task c today).shouldDisplay = false ∧
    ∀ (tasks : List Task) (date : Int) (info : TaskDisplayInfo),
      info ∈ getTasksForDate tasks date today → info.task ≠ task := by
  constructor
  · rw [getTaskDisplayInfo_completed task c today h]
  · intro tasks date info hmem heq
    unfold getTasksForDate at hmem
    rw [List.mem_filter] at hmem
    obtain ⟨hmap, hdisp⟩ := hmem
    rw [List.mem_map] at hmap
    obtain ⟨t0, _, rfl⟩ := hmap
    have ht0 : t0 = task := by
      rw [← task_of_getTaskDisplayInfo t0 date today, heq]
    subst ht0
    rw [getTaskDisplayInfo_completed t0 date today h] at hdisp
    simp at hdisp

/-- Witness for C8 at a concrete completed task. -/
theorem completed_never_displayed_witness :
    sampleCompleted.isCompleted = true ∧
    (getTaskDisplayInfo sampleCompleted 3 7).shouldDisplay = false :=
  ⟨rfl, (completed_never_displayed sampleCompleted 3 7 rfl).1⟩

/-- C4: for a pending task without a start date: with no due date either it is
never displayed; with a due date `D` it is displayed exactly on the cell equal
to `D`, is overdue exactly when `D` is before today, and its tier is critical
when overdue and normal otherwise. -/
theorem noStart_display (task : Task) (c today : Int)
    (hC : task.isCompleted = false) (hS : task.startDate = none) :
    (task.dueDate = none →
      (getTaskDisplayInfo task c today).shouldDisplay = false) ∧
    (∀ D, task.dueDate = some D →
      ((getTaskDisplayInfo task c today).shouldDisplay = true ↔ c = D) ∧
      ((getTaskDisplayInfo task c today).isOverdue = true ↔ D < today) ∧
      (getTaskDisplayInfo task c today).urgencyLevel =
        (if D < today then .critical else .normal)) := by
  constructor
  · intro hD
    rw [getTaskDisplayInfo_noStart_noDue task c today hC hS hD]
  · intro D hD
    rw [getTaskDisplayInfo_noStart_due task c today D hC hS hD]
    refine ⟨?_, ?_, rfl⟩
    · simp [eq_comm]
    · simp

/-- Witness for C4 at a concrete due-only task. -/
theorem noStart_display_witness :
    sampleDueOnly.isCompleted = false ∧ sampleDueOnly.startDate = none ∧
    ((getTaskDisplayInfo sampleDueOnly 5 7).isOverdue = true ↔ (5:Int) < 7) :=
  ⟨rfl, rfl, ((noStart_display sampleDueOnly 5 7 rfl rfl).2 5 rfl).2.1⟩

/-- C10: in every output of `getTaskDisplayInfo`, an overdue result is
critical and flagged urgent, and a critical result is always flagged
urgent. -/
theorem display_flag_coupling (task : Task) (c today : Int) :
    ((getTaskDisplayInfo task c today).isOverdue = true →
      (getTaskDisplayInfo task c today).urgencyLevel = .critical ∧
      (getTaskDisplayInfo task c today).isUrgent = true) ∧
    ((getTaskDisplayInfo task c today).urgencyLevel = .critical →
      (getTaskDisplayInfo task c today).isUrgent = true) := by
  cases hC : task.isCompleted with
  | true => rw [getTaskDisplayInfo_completed task c today hC]; simp
  | false =>
    cases hS : task.startDate with
    | none =>
      cases hD : task.dueDate with
      | none => rw [getTaskDisplayInfo_noStart_noDue task c today hC hS hD]; simp
      | some d =>
        rw [getTaskDisplayInfo_noStart_due task c today d hC hS hD]
        by_cases h : d < today
        · simp [h]
        · simp [h]
    | some s =>
      by_cases hA : today < s
      · rw [getTaskDisplayInfo_caseA task s c today hC hS hA]; simp
      · cases hD : task.dueDate with
        | none =>
          rw [getTaskDisplayInfo_caseC_noDue task s c today hC hS hD hA]; simp
        | some d =>
          by_cases hB : d < today
          · rw [getTaskDisplayInfo_caseB task s d c today hC hS hD hA hB]; simp
          · rw [getTaskDisplayInfo_caseC task s d c today hC hS hD hA hB]
            refine ⟨by simp, ?_⟩
            intro hcrit
            exact specCaseCUrgency_critical_flag s d today hcrit

/-- Witness for C10 at a concrete overdue task. -/
theorem display_flag_coupling_witness :
    (getTaskDisplayInfo sampleDueOnly 5 7).isOverdue = true ∧
    (getTaskDisplayInfo sampleDueOnly 5 7).urgencyLevel = .critical ∧
    (getTaskDisplayInfo sampleDueOnly 5 7).isUrgent = true :=
  ⟨by decide, ((display_flag_coupling sampleDueOnly 5 7).1 (by decide)).1,
   ((display_flag_coupling sampleDueOnly 5 7).1 (by decide)).2⟩

/-- A pending task with a start/due window, used in witnesses. -/
def sampleWindow : Task :=
  { id := "t3", title := "window", startDate := some 0, dueDate := some 9,
    priority := .medium, isCompleted := false }

/-- A pending task whose due date precedes its start date. -/
def sampleMalformed : Task :=
  { id := "t4", title := "malformed", startDate := some 5, dueDate := some 1,
    priority := .low, isCompleted := false }

/-- C1: for a pending task whose window contains the wall-clock day, the task
is displayed exactly on the cell equal to today, is not overdue, and its tier
and urgent flag are exactly the spec's Case C formula. -/
theorem caseC_display_and_urgency (task : Task) (s d c today : Int)
    (hC : task.isCompleted = false) (hS : task.startDate = some s)
    (hD : task.dueDate = some d) (h1 : s ≤ today) (h2 : today ≤ d) :
    ((getTaskDisplayInfo task c today).shouldDisplay = true ↔ c = today) ∧
    (getTaskDisplayInfo task c today).isOverdue = false ∧
    ((getTaskDisplayInfo task c today).urgencyLevel,
      (getTaskDisplayInfo task c today).isUrgent) = specCaseCUrgency s d today := by
  rw [getTaskDisplayInfo_caseC task s d c today hC hS hD (by omega) (by omega)]
  exact ⟨by simp, rfl, rfl⟩

/-- Witness for C1 one day before the due date (critical tier). -/
theorem caseC_display_and_urgency_witness :
    sampleWindow.isCompleted = false ∧ (0:Int) ≤ 8 ∧ (8:Int) ≤ 9 ∧
    ((getTaskDisplayInfo sampleWindow 8 8).urgencyLevel,
      (getTaskDisplayInfo sampleWindow 8 8).isUrgent) = specCaseCUrgency 0 9 8 :=
  ⟨rfl, by decide, by decide,
    (caseC_display_and_urgency sampleWindow 0 9 8 8 rfl rfl rfl (by decide)
      (by decide)).2.2⟩

/-- C6: the display-priority mapping: critical forces `URGENT`, urgent bumps a
non-`URGENT` stored priority to `HIGH`, everything else passes the stored
priority through; in particular `LOW` at critical maps to `URGENT` and
`MEDIUM` at urgent maps to `HIGH`.  The function is pure: it only reads
`task.priority` and never writes the task. -/
theorem displayPriority_mapping (task : Task) :
    getTaskDisplayPriority task .critical = .urgent ∧
    (task.priority ≠ .urgent → getTaskDisplayPriority task .urgent = .high) ∧
    (task.priority = .urgent →
      getTaskDisplayPriority task .urgent = task.priority) ∧
    getTaskDisplayPriority task .normal = task.priority ∧
    (task.priority = .low → getTaskDisplayPriority task .critical = .urgent) ∧
    (task.priority = .medium → getTaskDisplayPriority task .urgent = .high) := by
  cases hp : task.priority <;> simp [getTaskDisplayPriority, hp]

/-- Witness for C6: a LOW task at urgent tier is bumped to HIGH. -/
theorem displayPriority_mapping_witness :
    sampleDueOnly.priority ≠ Priority.urgent ∧
    getTaskDisplayPriority sampleDueOnly .urgent = .high :=
  ⟨by decide, (displayPriority_mapping sampleDueOnly).2.1 (by decide)⟩

/-- C9: when the due date precedes the start date, the Case C arithmetic is
unreachable: before the start day the Case A record is returned, and otherwise
the wall clock is necessarily past the due date and the Case B record is
returned; in particular the urgent tier never arises for such a task. -/
theorem malformed_window_safe (task : Task) (s d c today : Int)
    (hC : task.isCompleted = false) (hS : task.startDate = some s)
    (hD : task.dueDate = some d) (hlt : d < s) :
    ((today < s →
        getTaskDisplayInfo task c today =
          { task := task, displayDate := s, isOverdue := false,
            isUrgent := false, urgencyLevel := .normal,
            shouldDisplay := decide (c = s) }) ∧
     (¬ today < s →
        d < today ∧
        getTaskDisplayInfo task c today =
          { task := task, displayDate := d, isOverdue := true,
            isUrgent := true, urgencyLevel := .critical,
            shouldDisplay := decide (c = d) })) ∧
    (getTaskDisplayInfo task c today).urgencyLevel ≠ .urgent := by
  refine ⟨⟨fun hA => getTaskDisplayInfo_caseA task s c today hC hS hA,
    fun hA => ⟨by omega,
      getTaskDisplayInfo_caseB task s d c today hC hS hD hA (by omega)⟩⟩, ?_⟩
  by_cases hA : today < s
  · rw [getTaskDisplayInfo_caseA task s c today hC hS hA]; simp
  · rw [getTaskDisplayInfo_caseB task s d c today hC hS hD hA (by omega)]; simp

/-- Witness for C9 on a concrete malformed window before its start day. -/
theorem malformed_window_safe_witness :
    sampleMalformed.isCompleted = false ∧ (1:Int) < 5 ∧
    (getTaskDisplayInfo sampleMalformed 1 3).urgencyLevel ≠ .urgent :=
  ⟨rfl, by decide,
    (malformed_window_safe sampleMalformed 5 1 1 3 rfl rfl rfl (by decide)).2⟩

/-- C2 counterexample: start day 5, due day 1, wall clock 3 — today is
strictly after the due date, yet the task is not displayed on the due cell and
is not overdue: the Case A branch (today before start) fires before the Case B
branch. -/
theorem overdue_display_counterexample :
    sampleMalformed.isCompleted = false ∧
    sampleMalformed.startDate = some 5 ∧ sampleMalformed.dueDate = some 1 ∧
    (1:Int) < 3 ∧
    (getTaskDisplayInfo sampleMalformed 1 3).shouldDisplay = false ∧
    (getTaskDisplayInfo sampleMalformed 1 3).isOverdue = false ∧
    (getTaskDisplayInfo sampleMalformed 1 3).urgencyLevel = .normal := by
  decide

/-- C2 (amended): provided today is not before the start date, a pending task
strictly past its due date is displayed only on the due cell, overdue and
critical; and on the due day itself Case B does not apply: the task is
displayed on today with no overdue mark. -/
theorem overdue_display_amended (task : Task) (s d c today : Int)
    (hC : task.isCompleted = false) (hS : task.startDate = some s)
    (hD : task.dueDate = some d) (hstart : s ≤ today) :
    (d < today →
      ((getTaskDisplayInfo task c today).shouldDisplay = true ↔ c = d) ∧
      (getTaskDisplayInfo task c today).isOverdue = true ∧
      (getTaskDisplayInfo task c today).urgencyLevel = .critical) ∧
    (today = d →
      ((getTaskDisplayInfo task c today).shouldDisplay = true ↔ c = today) ∧
      (getTaskDisplayInfo task c today).isOverdue = false) := by
  constructor
  · intro hB
    rw [getTaskDisplayInfo_caseB task s d c today hC hS hD (by omega) hB]
    exact ⟨by simp, rfl, rfl⟩
  · intro hEq
    rw [getTaskDisplayInfo_caseC task s d c today hC hS hD (by omega) (by omega)]
    exact ⟨by simp, rfl⟩

/-- A pending task with a well-formed window already past its due date. -/
def sampleOverdueWin : Task :=
  { id := "t5", title := "overdue", startDate := some 0, dueDate := some 5,
    priority := .medium, isCompleted := false }

/-- Witness for the amended C2 on a concrete well-formed overdue task. -/
theorem overdue_display_amended_witness :
    sampleOverdueWin.isCompleted = false ∧ (0:Int) ≤ 7 ∧ (5:Int) < 7 ∧
    (getTaskDisplayInfo sampleOverdueWin 5 7).isOverdue = true :=
  ⟨rfl, by decide, by decide,
    ((overdue_display_amended sampleOverdueWin 0 5 5 7 rfl rfl rfl
      (by decide)).1 (by decide)).2.1⟩

/-- A pending task whose due date precedes its start date, with the wall clock
on the start day. -/
def sampleMalformedB : Task :=
  { id := "t6", title := "malformed-b", startDate := some 3, dueDate := some 1,
    priority := .low, isCompleted := false }

/-- C3 counterexample: start day 3, due day 1, wall clock 3 — today equals the
start date, yet Case C does not govern: Case B fires (due present and today
past due), the task shows on the due cell with an overdue mark, not on
today. -/
theorem preStart_display_counterexample :
    sampleMalformedB.isCompleted = false ∧
    sampleMalformedB.startDate = some 3 ∧
    (getTaskDisplayInfo sampleMalformedB 3 3).shouldDisplay = false ∧
    (getTaskDisplayInfo sampleMalformedB 3 3).displayDate = 1 ∧
    (getTaskDisplayInfo sampleMalformedB 3 3).isOverdue = true := by
  decide

/-- C3 (amended): before the start day a pending task is displayed only on the
start cell, not overdue, normal tier, regardless of its due date; on the start
day itself Case A no longer applies, and Case C governs provided the due date
is absent or not already past. -/
theorem preStart_display_amended (task : Task) (s c today : Int)
    (hC : task.isCompleted = false) (hS : task.startDate = some s) :
    (today < s →
      ((getTaskDisplayInfo task c today).shouldDisplay = true ↔ c = s) ∧
      (getTaskDisplayInfo task c today).isOverdue = false ∧
      (getTaskDisplayInfo task c today).urgencyLevel = .normal ∧
      (getTaskDisplayInfo task c today).displayDate = s) ∧
    (today = s →
      (task.dueDate = none ∨ ∃ d, task.dueDate = some d ∧ today ≤ d) →
      ((getTaskDisplayInfo task c today).shouldDisplay = true ↔ c = today) ∧
      (getTaskDisplayInfo task c today).isOverdue = false ∧
      (getTaskDisplayInfo task c today).displayDate = today) := by
  constructor
  · intro hA
    rw [getTaskDisplayInfo_caseA task s c today hC hS hA]
    exact ⟨by simp, rfl, rfl, rfl⟩
  · rintro hEq (hD | ⟨d, hD, hle⟩)
    · rw [getTaskDisplayInfo_caseC_noDue task s c today hC hS hD (by omega)]
      exact ⟨by simp, rfl, rfl⟩
    · rw [getTaskDisplayInfo_caseC task s d c today hC hS hD (by omega)
        (by omega)]
      exact ⟨by simp, rfl, rfl⟩

/-- A pending task with only a future start date. -/
def sampleFuture : Task :=
  { id := "t7", title := "future", startDate := some 4, dueDate := none,
    priority := .high, isCompleted := false }

/-- Witness for the amended C3 on a concrete not-yet-started task. -/
theorem preStart_display_amended_witness :
    sampleFuture.isCompleted = false ∧ (2:Int) < 4 ∧
    ((getTaskDisplayInfo sampleFuture 4 2).shouldDisplay = true ↔
      (4:Int) = 4) :=
  ⟨rfl, by decide,
    ((preStart_display_amended sampleFuture 4 4 2 rfl rfl).1 (by decide)).1⟩

/-- Tier rank of the spec Case C formula as an explicit case split on the
three branch conditions. -/
theorem urgencyRank_specCaseCUrgency (s d t : Int) :
    urgencyRank (specCaseCUrgency s d t).1 =
      if d - t ≤ 1 then 2
      else if d - t ≤ 3 ∨
          (((max 1 (d - s) : Int) : ℚ) - ((d - t : Int) : ℚ)) /
            ((max 1 (d - s) : Int) : ℚ) ≥ 8/10 then 1
      else if (((max 1 (d - s) : Int) : ℚ) - ((d - t : Int) : ℚ)) /
          ((max 1 (d - s) : Int) : ℚ) ≥ 6/10 then 1
      else 0 := by
  simp only [specCaseCUrgency]
  split_ifs <;> rfl

/-- The spec Case C tier rank never decreases as the wall clock advances. -/
theorem specCaseCUrgency_rank_mono (s d t1 t2 : Int) (h : t1 ≤ t2) :
    urgencyRank (specCaseCUrgency s d t1).1 ≤
      urgencyRank (specCaseCUrgency s d t2).1 := by
  have hT1 : (1:Int) ≤ max 1 (d - s) := le_max_left _ _
  have hT0 : (0:ℚ) < ((max 1 (d - s) : Int) : ℚ) := by
    exact_mod_cast lt_of_lt_of_le Int.zero_lt_one hT1
  have hrq : ((d - t2 : Int) : ℚ) ≤ ((d - t1 : Int) : ℚ) := by
    have hz : d - t2 ≤ d - t1 := by omega
    exact_mod_cast hz
  have hp : (((max 1 (d - s) : Int) : ℚ) - ((d - t1 : Int) : ℚ)) /
        ((max 1 (d - s) : Int) : ℚ) ≤
      (((max 1 (d - s) : Int) : ℚ) - ((d - t2 : Int) : ℚ)) /
        ((max 1 (d - s) : Int) : ℚ) := by
    rw [div_eq_mul_inv, div_eq_mul_inv]
    exact mul_le_mul_of_nonneg_right (by linarith) (inv_nonneg.mpr hT0.le)
  have hBimp : (d - t1 ≤ 3 ∨
        (((max 1 (d - s) : Int) : ℚ) - ((d - t1 : Int) : ℚ)) /
          ((max 1 (d - s) : Int) : ℚ) ≥ 8/10) →
      (d - t2 ≤ 3 ∨
        (((max 1 (d - s) : Int) : ℚ) - ((d - t2 : Int) : ℚ)) /
          ((max 1 (d - s) : Int) : ℚ) ≥ 8/10) := by
    rintro (hb | hb)
    · left; omega
    · right; linarith
  have hCimp : (((max 1 (d - s) : Int) : ℚ) - ((d - t1 : Int) : ℚ)) /
        ((max 1 (d - s) : Int) : ℚ) ≥ 6/10 →
      (((max 1 (d - s) : Int) : ℚ) - ((d - t2 : Int) : ℚ)) /
        ((max 1 (d - s) : Int) : ℚ) ≥ 6/10 := fun hc => le_trans hc hp
  rw [urgencyRank_specCaseCUrgency, urgencyRank_specCaseCUrgency]
  split_ifs <;> first | omega | tauto

/-- C5: for a fixed pending task with a well-formed window, as the wall clock
advances while staying inside the window the tier computed by
`getTaskDisplayInfo` never decreases in the order normal < urgent <
critical. -/
theorem urgency_monotone (task : Task) (s d c t1 t2 : Int)
    (hC : task.isCompleted = false) (hS : task.startDate = some s)
    (hD : task.dueDate = some d)
    (h1 : s ≤ t1) (h12 : t1 ≤ t2) (h2 : t2 ≤ d) :
    urgencyRank (getTaskDisplayInfo task c t1).urgencyLevel ≤
      urgencyRank (getTaskDisplayInfo task c t2).urgencyLevel := by
  rw [getTaskDisplayInfo_caseC task s d c t1 hC hS hD (by omega) (by omega)]
  rw [getTaskDisplayInfo_caseC task s d c t2 hC hS hD (by omega) (by omega)]
  exact specCaseCUrgency_rank_mono s d t1 t2 h12

/-- Witness for C5 inside a concrete ten-day window. -/
theorem urgency_monotone_witness :
    sampleWindow.isCompleted = false ∧ (0:Int) ≤ 5 ∧ (5:Int) ≤ 8 ∧
    (8:Int) ≤ 9 ∧
    urgencyRank (getTaskDisplayInfo sampleWindow 5 5).urgencyLevel ≤
      urgencyRank (getTaskDisplayInfo sampleWindow 5 8).urgencyLevel :=
  ⟨rfl, by decide, by decide, by decide,
    urgency_monotone sampleWindow 0 9 5 5 8 rfl rfl rfl (by decide) (by decide)
      (by decide)⟩

/-- `urgencyOrder` is injective. -/
theorem urgencyOrder_inj (u v : UrgencyLevel)
    (h : urgencyOrder u = urgencyOrder v) : u = v := by
  cases u <;> cases v <;> simp_all [urgencyOrder]

/-- The day-detail comparator is nonpositive exactly when the first element's
urgency tier is strictly higher, or the tiers are equal and its stored
priority rank is at least as high. -/
theorem dayTasksCompare_nonpos_iff (a b : TaskDisplayInfo) :
    dayTasksCompare a b ≤ 0 ↔
      (urgencyOrder b.urgencyLevel < urgencyOrder a.urgencyLevel ∨
        (a.urgencyLevel = b.urgencyLevel ∧
          priorityOrder b.task.priority ≤ priorityOrder a.task.priority)) := by
  unfold dayTasksCompare
  by_cases hu : a.urgencyLevel = b.urgencyLevel
  · rw [if_neg (by simp [hu])]
    constructor
    · intro h; right; exact ⟨hu, by omega⟩
    · rintro (h | ⟨_, h⟩)
      · rw [hu] at h; omega
      · omega
  · rw [if_pos hu]
    constructor
    · intro h
      left
      have hne : urgencyOrder a.urgencyLevel ≠ urgencyOrder b.urgencyLevel :=
        fun he => hu (urgencyOrder_inj _ _ he)
      omega
    · rintro (h | ⟨he, _⟩)
      · omega
      · exact absurd he hu

/-- The day-detail comparator order is transitive. -/
theorem dayTasksCompare_trans (a b c : TaskDisplayInfo)
    (h1 : dayTasksCompare a b ≤ 0) (h2 : dayTasksCompare b c ≤ 0) :
    dayTasksCompare a c ≤ 0 := by
  rw [dayTasksCompare_nonpos_iff] at h1 h2 ⊢
  rcases h1 with h1 | ⟨e1, p1⟩ <;> rcases h2 with h2 | ⟨e2, p2⟩
  · left; omega
  · left; rw [← e2]; exact h1
  · left; rw [e1]; exact h2
  · right; exact ⟨e1.trans e2, le_trans p2 p1⟩

/-- The day-detail comparator order is total. -/
theorem dayTasksCompare_total (a b : TaskDisplayInfo) :
    dayTasksCompare a b ≤ 0 ∨ dayTasksCompare b a ≤ 0 := by
  rw [dayTasksCompare_nonpos_iff, dayTasksCompare_nonpos_iff]
  rcases lt_trichotomy (urgencyOrder a.urgencyLevel)
      (urgencyOrder b.urgencyLevel) with h | h | h
  · right; left; exact h
  · have he : a.urgencyLevel = b.urgencyLevel := urgencyOrder_inj _ _ h
    rcases le_total (priorityOrder b.task.priority)
        (priorityOrder a.task.priority) with hp | hp
    · left; right; exact ⟨he, hp⟩
    · right; right; exact ⟨he.symm, hp⟩
  · left; left; exact h

/-- C7: in the day-detail view, every adjacent pair of the sorted task list is
ordered by urgency tier descending, with stored priority descending as the
tiebreak among equal tiers. -/
theorem sortedTasks_ordered (tasks : List Task) (date today : Int) :
    (sortedTasks tasks date today).Chain'
      (fun a b =>
        urgencyOrder b.urgencyLevel < urgencyOrder a.urgencyLevel ∨
        (a.urgencyLevel = b.urgencyLevel ∧
          priorityOrder b.task.priority ≤ priorityOrder a.task.priority)) := by
  unfold sortedTasks
  have hs := @List.sorted_mergeSort TaskDisplayInfo
    (fun a b => decide (dayTasksCompare a b ≤ 0))
    (fun a b c hab hbc => by
      simp only [decide_eq_true_eq] at hab hbc ⊢
      exact dayTasksCompare_trans a b c hab hbc)
    (fun a b => by
      simp only [Bool.or_eq_true, decide_eq_true_eq]
      exact dayTasksCompare_total a b)
    (getTasksForDate tasks date today)
  refine List.Pairwise.chain' (hs.imp ?_)
  intro a b hab
  simp only [decide_eq_true_eq] at hab
  exact (dayTasksCompare_nonpos_iff a b).mp hab

end TodoApp
